import Mathlib

/-!
Shallow embedding of the Exonum cryptocurrency service core
(schema, transactions, errors, contracts of src/lib.rs).

Modelling conventions:
- A public key is modelled as a natural number (only equality of keys is
  used by the core logic).
- The u64 balances and amounts are natural numbers; the unchecked Rust
  u64 arithmetic of Wallet::increase / decrease / freeze is modelled with
  explicit reduction modulo 2^64, which is what the compiled code computes
  when overflow checks are disabled (the default release profile; with
  overflow checks the same inputs abort instead of returning a value, so
  in neither build does an overflowing add return the mathematical sum).
- The MapIndex "cryptocurrency.wallets" is modelled as an association
  list with get and put by key.
- Each execute method takes the view (store) and returns the pair of its
  Result and the resulting view, mirroring the &mut Fork threading; the
  Rust early returns with Err perform no put, so the error branches
  return the incoming view.
-/

/-- Modulus of the u64 type. -/
def U64MOD : Nat := 2 ^ 64

/-- Rust u64 addition as compiled without overflow checks: wraps modulo 2^64. -/
def u64add (a b : Nat) : Nat := (a + b) % U64MOD

/-- Rust u64 subtraction as compiled without overflow checks: wraps modulo 2^64
(for arguments below 2^64 this is a - b when b le a). -/
def u64sub (a b : Nat) : Nat := (a + U64MOD - b) % U64MOD

/-- The account public key, modelled as a natural number. -/
abbrev PublicKey := Nat

/-- The Wallet record of the schema module: pub_key, name, email, balance. -/
structure Wallet where
  pub_key : PublicKey
  name : String
  email : String
  balance : Nat
deriving DecidableEq

/-- Wallet::increase: a new record with balance + amount (u64 add). -/
def Wallet.increase (w : Wallet) (amount : Nat) : Wallet :=
  { pub_key := w.pub_key, name := w.name, email := w.email,
    balance := u64add w.balance amount }

/-- Wallet::decrease: a new record with balance - amount (u64 sub). -/
def Wallet.decrease (w : Wallet) (amount : Nat) : Wallet :=
  { pub_key := w.pub_key, name := w.name, email := w.email,
    balance := u64sub w.balance amount }

/-- Wallet::freeze: a new record with balance - amount (u64 sub), written in
the source exactly as Wallet::decrease. -/
def Wallet.freeze (w : Wallet) (amount : Nat) : Wallet :=
  { pub_key := w.pub_key, name := w.name, email := w.email,
    balance := u64sub w.balance amount }

/-- The wallets MapIndex of CurrencySchema, as an association list keyed by
public key. -/
abbrev Store := List (PublicKey × Wallet)

/-- MapIndex::get by key (CurrencySchema::wallet). -/
def storeGet : Store → PublicKey → Option Wallet
  | [], _ => none
  | (k, w) :: rest, key => if k = key then some w else storeGet rest key

/-- MapIndex::put by key: replaces the binding if the key is present,
appends it otherwise. -/
def storePut : Store → PublicKey → Wallet → Store
  | [], key, w => [(key, w)]
  | (k, w0) :: rest, key, w =>
      if k = key then (key, w) :: rest else (k, w0) :: storePut rest key w

/-- Sum of the balances of all wallets in the store. -/
def sumBalances (s : Store) : Nat :=
  s.foldr (fun kw acc => kw.2.balance + acc) 0

/-- The TxCreateWallet transaction fields. -/
structure TxCreateWallet where
  pub_key : PublicKey
  name : String
  email : String
deriving DecidableEq

/-- The TxTransfer transaction fields (from and to are reserved words in
Lean, hence the trailing underscore). -/
structure TxTransfer where
  from_ : PublicKey
  to_ : PublicKey
  amount : Nat
  seed : Nat
deriving DecidableEq

/-- The TxFreeze transaction fields. -/
structure TxFreeze where
  pub_key : PublicKey
  amount : Nat
deriving DecidableEq

/-- The service error enumeration of the errors module. -/
inductive Error where
  | WalletAlreadyExists
  | SenderNotFound
  | ReceiverNotFound
  | InsufficientCurrencyAmount
deriving DecidableEq

/-- The repr(u8) discriminant of each Error variant (value as u8). -/
def errorCode : Error → Nat
  | .WalletAlreadyExists => 0
  | .SenderNotFound => 1
  | .ReceiverNotFound => 2
  | .InsufficientCurrencyAmount => 3

/-- The fail(display = ...) description of each Error variant. -/
def errorDescription : Error → String
  | .WalletAlreadyExists => "Wallet already exists"
  | .SenderNotFound => "Sender doesn\x27t exist"
  | .ReceiverNotFound => "Receiver doesn\x27t exist"
  | .InsufficientCurrencyAmount => "Insufficient currency amount"

/-- The platform ExecutionError: a numeric code and a description. -/
structure ExecutionError where
  code : Nat
  description : String
deriving DecidableEq

/-- ExecutionError::with_description. -/
def ExecutionError.with_description (code : Nat) (description : String) :
    ExecutionError :=
  { code := code, description := description }

/-- From Error for ExecutionError: with_description(value as u8,
format of the Display instance). -/
def executionErrorFrom (value : Error) : ExecutionError :=
  ExecutionError.with_description (errorCode value) (errorDescription value)

/-- INIT_BALANCE of the contracts module. -/
def INIT_BALANCE : Nat := 0

/-- The ExecutionResult together with the view after execution. -/
abbrev ExecOutcome := Except Error Unit × Store

/-- TxCreateWallet::verify: the signature check over the owner key, with the
platform signature verifier passed in as a function. -/
def txCreateWalletVerify (verify_signature : PublicKey → Bool)
    (tx : TxCreateWallet) : Bool :=
  verify_signature tx.pub_key

/-- TxCreateWallet::execute on a view. -/
def txCreateWalletExecute (tx : TxCreateWallet) (view : Store) : ExecOutcome :=
  match storeGet view tx.pub_key with
  | none =>
      let wallet : Wallet :=
        { pub_key := tx.pub_key, name := tx.name, email := tx.email,
          balance := INIT_BALANCE }
      (Except.ok (), storePut view tx.pub_key wallet)
  | some _ => (Except.error Error.WalletAlreadyExists, view)

/-- TxTransfer::verify: from differs from to, and the signature is valid for
from; the platform signature verifier is passed in as a function. -/
def txTransferVerify (verify_signature : PublicKey → Bool)
    (tx : TxTransfer) : Bool :=
  (decide (tx.from_ ≠ tx.to_)) && verify_signature tx.from_

/-- TxTransfer::execute on a view: read sender, read receiver, check the
balance, then put the decreased sender and the increased receiver. -/
def txTransferExecute (tx : TxTransfer) (view : Store) : ExecOutcome :=
  match storeGet view tx.from_ with
  | none => (Except.error Error.SenderNotFound, view)
  | some sender =>
    match storeGet view tx.to_ with
    | none => (Except.error Error.ReceiverNotFound, view)
    | some receiver =>
      let amount := tx.amount
      if sender.balance ≥ amount then
        let sender := sender.decrease amount
        let receiver := receiver.increase amount
        let view := storePut view tx.from_ sender
        let view := storePut view tx.to_ receiver
        (Except.ok (), view)
      else
        (Except.error Error.InsufficientCurrencyAmount, view)

/-- TxFreeze::verify: the signature check over the owner key. -/
def txFreezeVerify (verify_signature : PublicKey → Bool)
    (tx : TxFreeze) : Bool :=
  verify_signature tx.pub_key

/-- TxFreeze::execute on a view: read the wallet, check the balance, then put
the frozen record. -/
def txFreezeExecute (tx : TxFreeze) (view : Store) : ExecOutcome :=
  match storeGet view tx.pub_key with
  | none => (Except.error Error.SenderNotFound, view)
  | some freezer =>
    let amount := tx.amount
    if freezer.balance ≥ amount then
      let freezer := freezer.freeze amount
      let view := storePut view tx.pub_key freezer
      (Except.ok (), view)
    else
      (Except.error Error.InsufficientCurrencyAmount, view)

/-- storeGet after storePut at the same key yields the stored wallet. -/
theorem storeGet_storePut_same (s : Store) (k : PublicKey) (w : Wallet) :
    storeGet (storePut s k w) k = some w := by
  induction s with
  | nil => simp [storePut, storeGet]
  | cons hd tl ih =>
    by_cases h : hd.1 = k
    · simp [storePut, storeGet, h]
    · simp [storePut, storeGet, h, ih]

/-- storeGet after storePut at a different key is unchanged. -/
theorem storeGet_storePut_other (s : Store) (k k' : PublicKey) (w : Wallet)
    (h : k ≠ k') : storeGet (storePut s k w) k' = storeGet s k' := by
  induction s with
  | nil => simp [storePut, storeGet, h]
  | cons hd tl ih =>
    by_cases hk : hd.1 = k
    · simp [storePut, storeGet, hk, h]
    · simp [storePut, storeGet, hk, ih]

/-- C1: the claim states that every sequence of Ok transfers preserves the sum
of balances. The receiver-side add in Wallet::increase is unchecked u64
arithmetic, so a transfer whose credit overflows returns Ok with a wrapped
receiver balance: on the store holding alice with balance 2^64 - 1 and bob
with balance 1, the transfer of 2^64 - 1 from alice to bob returns Ok and the
total balance drops from 2^64 to 0. -/
theorem transfer_overflow_breaks_conservation :
    (txTransferExecute ⟨0, 1, U64MOD - 1, 0⟩
        [(0, ⟨0, "alice", "al@x", U64MOD - 1⟩), (1, ⟨1, "bob", "bo@x", 1⟩)]).1
      = Except.ok () ∧
    sumBalances [(0, (⟨0, "alice", "al@x", U64MOD - 1⟩ : Wallet)),
        (1, ⟨1, "bob", "bo@x", 1⟩)] = U64MOD ∧
    sumBalances (txTransferExecute ⟨0, 1, U64MOD - 1, 0⟩
        [(0, ⟨0, "alice", "al@x", U64MOD - 1⟩), (1, ⟨1, "bob", "bo@x", 1⟩)]).2
      = 0 ∧
    U64MOD ≠ 0 :=
  ⟨rfl, by decide, by decide, by decide⟩

/-- C2: when both wallets of a Transfer exist but the sender balance is below
amount, or the Freeze wallet exists with balance below amount, execute returns
InsufficientCurrencyAmount with the view untouched; and whenever Transfer
returns any error the view is exactly the incoming one, so neither the sender
record nor the receiver record changes. -/
theorem insufficient_and_error_leave_store_unchanged :
    (∀ (tx : TxTransfer) (view : Store) (sender receiver : Wallet),
      storeGet view tx.from_ = some sender →
      storeGet view tx.to_ = some receiver →
      sender.balance < tx.amount →
      txTransferExecute tx view
        = (Except.error Error.InsufficientCurrencyAmount, view)) ∧
    (∀ (tx : TxFreeze) (view : Store) (freezer : Wallet),
      storeGet view tx.pub_key = some freezer →
      freezer.balance < tx.amount →
      txFreezeExecute tx view
        = (Except.error Error.InsufficientCurrencyAmount, view)) ∧
    (∀ (tx : TxTransfer) (view : Store) (e : Error),
      (txTransferExecute tx view).1 = Except.error e →
      (txTransferExecute tx view).2 = view) := by
  refine ⟨?_, ?_, ?_⟩
  · intro tx view sender receiver hs hr hlt
    simp only [txTransferExecute, hs, hr]
    rw [if_neg (Nat.not_le.mpr hlt)]
  · intro tx view freezer hf hlt
    simp only [txFreezeExecute, hf]
    rw [if_neg (Nat.not_le.mpr hlt)]
  · intro tx view e h
    simp only [txTransferExecute] at h ⊢
    cases hs : storeGet view tx.from_ with
    | none => simp only [hs]
    | some sender =>
      cases hr : storeGet view tx.to_ with
      | none => simp only [hs, hr]
      | some receiver =>
        simp only [hs, hr] at h ⊢
        by_cases hb : sender.balance ≥ tx.amount
        · rw [if_pos hb] at h
          exact absurd h (by simp)
        · rw [if_neg hb]

/-- C2 witness: concrete instances of the three parts, at a store holding one
wallet with balance 1 and a transfer and a freeze of amount 2. -/
theorem insufficient_and_error_leave_store_unchanged_witness :
    txTransferExecute ⟨0, 1, 2, 0⟩
        [(0, ⟨0, "a", "a@x", 1⟩), (1, ⟨1, "b", "b@x", 1⟩)]
      = (Except.error Error.InsufficientCurrencyAmount,
         [(0, ⟨0, "a", "a@x", 1⟩), (1, ⟨1, "b", "b@x", 1⟩)]) ∧
    txFreezeExecute ⟨0, 2⟩ [(0, ⟨0, "a", "a@x", 1⟩)]
      = (Except.error Error.InsufficientCurrencyAmount,
         [(0, ⟨0, "a", "a@x", 1⟩)]) ∧
    (txTransferExecute ⟨5, 6, 1, 0⟩ []).2 = [] :=
  ⟨insufficient_and_error_leave_store_unchanged.1 _ _ _ _ rfl rfl (by decide),
   insufficient_and_error_leave_store_unchanged.2.1 _ _ _ rfl (by decide),
   insufficient_and_error_leave_store_unchanged.2.2 ⟨5, 6, 1, 0⟩ []
     Error.SenderNotFound rfl⟩

/-- C3: on a store where the identifier is absent, the first CreateWallet
execution returns Ok and inserts the record, and running the same CreateWallet
again on the resulting store returns WalletAlreadyExists and leaves the store,
hence the existing record, unchanged. -/
theorem create_wallet_twice (pk : PublicKey) (nm em : String) (view : Store)
    (habs : storeGet view pk = none) :
    txCreateWalletExecute ⟨pk, nm, em⟩ view
      = (Except.ok (), storePut view pk ⟨pk, nm, em, INIT_BALANCE⟩) ∧
    txCreateWalletExecute ⟨pk, nm, em⟩
        (txCreateWalletExecute ⟨pk, nm, em⟩ view).2
      = (Except.error Error.WalletAlreadyExists,
         (txCreateWalletExecute ⟨pk, nm, em⟩ view).2) := by
  have h1 : txCreateWalletExecute ⟨pk, nm, em⟩ view
      = (Except.ok (), storePut view pk ⟨pk, nm, em, INIT_BALANCE⟩) := by
    simp only [txCreateWalletExecute, habs]
  refine ⟨h1, ?_⟩
  rw [h1]
  simp only [txCreateWalletExecute, storeGet_storePut_same]

/-- C3 witness: creating wallet 0 twice on the empty store. -/
theorem create_wallet_twice_witness :
    txCreateWalletExecute ⟨0, "Alice", "al@x"⟩ []
      = (Except.ok (), storePut [] 0 ⟨0, "Alice", "al@x", INIT_BALANCE⟩) ∧
    txCreateWalletExecute ⟨0, "Alice", "al@x"⟩
        (txCreateWalletExecute ⟨0, "Alice", "al@x"⟩ []).2
      = (Except.error Error.WalletAlreadyExists,
         (txCreateWalletExecute ⟨0, "Alice", "al@x"⟩ []).2) :=
  create_wallet_twice 0 "Alice" "al@x" [] rfl

/-- C4: TxTransfer::verify is false whenever from equals to, whatever the
signature verifier answers, and is true exactly when from differs from to and
the signature is valid for from. -/
theorem transfer_verify_rejects_self_transfer
    (verify_signature : PublicKey → Bool) (tx : TxTransfer) :
    (tx.from_ = tx.to_ → txTransferVerify verify_signature tx = false) ∧
    (txTransferVerify verify_signature tx = true ↔
      tx.from_ ≠ tx.to_ ∧ verify_signature tx.from_ = true) := by
  constructor
  · intro h
    simp [txTransferVerify, h]
  · simp [txTransferVerify, Bool.and_eq_true, decide_eq_true_iff]

/-- C4 witness: a self transfer is rejected even by the verifier that accepts
every signature, and a transfer between distinct keys with a valid signature
verifies. -/
theorem transfer_verify_rejects_self_transfer_witness :
    txTransferVerify (fun _ => true) ⟨0, 0, 1, 0⟩ = false ∧
    txTransferVerify (fun _ => true) ⟨0, 1, 1, 0⟩ = true :=
  ⟨(transfer_verify_rejects_self_transfer (fun _ => true) ⟨0, 0, 1, 0⟩).1 rfl,
   (transfer_verify_rejects_self_transfer (fun _ => true) ⟨0, 1, 1, 0⟩).2.mpr
     ⟨by decide, rfl⟩⟩

/-- C5 counterexample: the claim states that a self transfer of amount a on a
wallet of balance b with b at least a leaves balance b + a. At b = a =
2^64 - 1 the execute returns Ok but the stored balance is 2^64 - 2, the
wrapped sum, not b + a = 2^65 - 2. -/
theorem self_transfer_overflow_counterexample :
    (txTransferExecute ⟨0, 0, U64MOD - 1, 0⟩
        [(0, ⟨0, "w", "w@x", U64MOD - 1⟩)]).1 = Except.ok () ∧
    storeGet (txTransferExecute ⟨0, 0, U64MOD - 1, 0⟩
        [(0, ⟨0, "w", "w@x", U64MOD - 1⟩)]).2 0
      = some ⟨0, "w", "w@x", U64MOD - 2⟩ ∧
    U64MOD - 2 ≠ (U64MOD - 1) + (U64MOD - 1) :=
  ⟨rfl, by decide, by decide⟩

/-- C5 (amended): TxTransfer::execute performs no sender-equals-receiver check:
when wallet w exists at key k with balance at least amount, the self transfer
returns Ok and the final record at k is the increase of the originally read
record (both reads precede both writes and the receiver-side put overwrites
the sender-side put), so the final balance is (b + amount) mod 2^64, which is
b + amount whenever that sum fits in u64. -/
theorem self_transfer_double_credits (view : Store) (k a s : Nat) (w : Wallet)
    (hget : storeGet view k = some w) (hbal : w.balance ≥ a) :
    (txTransferExecute ⟨k, k, a, s⟩ view).1 = Except.ok () ∧
    storeGet (txTransferExecute ⟨k, k, a, s⟩ view).2 k
      = some (w.increase a) ∧
    (w.increase a).balance = (w.balance + a) % U64MOD := by
  have hrun : txTransferExecute ⟨k, k, a, s⟩ view
      = (Except.ok (),
         storePut (storePut view k (w.decrease a)) k (w.increase a)) := by
    simp only [txTransferExecute, hget]
    rw [if_pos hbal]
  refine ⟨by rw [hrun], ?_, rfl⟩
  rw [hrun]
  exact storeGet_storePut_same _ _ _

/-- C5 witness: a self transfer of 3 on a wallet of balance 5 returns Ok and
stores the doubly read record increased to 8. -/
theorem self_transfer_double_credits_witness :
    (txTransferExecute ⟨0, 0, 3, 0⟩ [(0, ⟨0, "w", "w@x", 5⟩)]).1
      = Except.ok () ∧
    storeGet (txTransferExecute ⟨0, 0, 3, 0⟩ [(0, ⟨0, "w", "w@x", 5⟩)]).2 0
      = some (Wallet.increase ⟨0, "w", "w@x", 5⟩ 3) ∧
    (Wallet.increase ⟨0, "w", "w@x", 5⟩ 3).balance = (5 + 3) % U64MOD :=
  self_transfer_double_credits [(0, ⟨0, "w", "w@x", 5⟩)] 0 3 0
    ⟨0, "w", "w@x", 5⟩ rfl (by decide)

/-- C6: the Transfer guards fire in a fixed order: SenderNotFound when the
sender is absent, whatever the receiver; else ReceiverNotFound when the
receiver is absent, whatever the sender balance; else
InsufficientCurrencyAmount when the sender balance is below amount; else the
success write of the decreased sender then the increased receiver; and the
concrete Scenario C: on a store holding only wallet 0, the transfer of 1 from
wallet 0 to the absent wallet 1 fails ReceiverNotFound with the store
unchanged. -/
theorem transfer_guard_order :
    (∀ (tx : TxTransfer) (view : Store), storeGet view tx.from_ = none →
      txTransferExecute tx view = (Except.error Error.SenderNotFound, view)) ∧
    (∀ (tx : TxTransfer) (view : Store) (sender : Wallet),
      storeGet view tx.from_ = some sender → storeGet view tx.to_ = none →
      txTransferExecute tx view
        = (Except.error Error.ReceiverNotFound, view)) ∧
    (∀ (tx : TxTransfer) (view : Store) (sender receiver : Wallet),
      storeGet view tx.from_ = some sender →
      storeGet view tx.to_ = some receiver →
      sender.balance < tx.amount →
      txTransferExecute tx view
        = (Except.error Error.InsufficientCurrencyAmount, view)) ∧
    (∀ (tx : TxTransfer) (view : Store) (sender receiver : Wallet),
      storeGet view tx.from_ = some sender →
      storeGet view tx.to_ = some receiver →
      sender.balance ≥ tx.amount →
      txTransferExecute tx view
        = (Except.ok (),
           storePut (storePut view tx.from_ (sender.decrease tx.amount))
             tx.to_ (receiver.increase tx.amount))) ∧
    txTransferExecute ⟨0, 1, 1, 0⟩ [(0, ⟨0, "a", "a@x", 0⟩)]
      = (Except.error Error.ReceiverNotFound, [(0, ⟨0, "a", "a@x", 0⟩)]) := by
  refine ⟨?_, ?_, ?_, ?_, rfl⟩
  · intro tx view hs
    simp only [txTransferExecute, hs]
  · intro tx view sender hs hr
    simp only [txTransferExecute, hs, hr]
  · intro tx view sender receiver hs hr hlt
    simp only [txTransferExecute, hs, hr]
    rw [if_neg (Nat.not_le.mpr hlt)]
  · intro tx view sender receiver hs hr hge
    simp only [txTransferExecute, hs, hr]
    rw [if_pos hge]

/-- C6 witness: the four guard cases at concrete stores: absent sender, absent
receiver, balance 1 below amount 2, and a funded transfer of 2 out of 3. -/
theorem transfer_guard_order_witness :
    txTransferExecute ⟨7, 1, 1, 0⟩ [(1, ⟨1, "b", "b@x", 9⟩)]
      = (Except.error Error.SenderNotFound, [(1, ⟨1, "b", "b@x", 9⟩)]) ∧
    txTransferExecute ⟨0, 9, 0, 0⟩ [(0, ⟨0, "a", "a@x", 9⟩)]
      = (Except.error Error.ReceiverNotFound, [(0, ⟨0, "a", "a@x", 9⟩)]) ∧
    txTransferExecute ⟨0, 1, 2, 0⟩
        [(0, ⟨0, "a", "a@x", 1⟩), (1, ⟨1, "b", "b@x", 0⟩)]
      = (Except.error Error.InsufficientCurrencyAmount,
         [(0, ⟨0, "a", "a@x", 1⟩), (1, ⟨1, "b", "b@x", 0⟩)]) ∧
    txTransferExecute ⟨0, 1, 2, 0⟩
        [(0, ⟨0, "a", "a@x", 3⟩), (1, ⟨1, "b", "b@x", 0⟩)]
      = (Except.ok (),
         storePut (storePut [(0, ⟨0, "a", "a@x", 3⟩), (1, ⟨1, "b", "b@x", 0⟩)]
             0 (Wallet.decrease ⟨0, "a", "a@x", 3⟩ 2))
           1 (Wallet.increase ⟨1, "b", "b@x", 0⟩ 2)) :=
  ⟨transfer_guard_order.1 ⟨7, 1, 1, 0⟩ _ rfl,
   transfer_guard_order.2.1 ⟨0, 9, 0, 0⟩ _ _ rfl rfl,
   transfer_guard_order.2.2.1 ⟨0, 1, 2, 0⟩ _ _ _ rfl rfl (by decide),
   transfer_guard_order.2.2.2.1 ⟨0, 1, 2, 0⟩ _ _ _ rfl rfl (by decide)⟩

/-- C7: Wallet::freeze is extensionally equal to Wallet::decrease, and a
successful Freeze execution writes only the debited record under the owner
key: the resulting store is exactly the put of freeze(amount) at that key, and
every other key still maps to what it did before, so no compensating
frozen-funds record exists anywhere in the store. -/
theorem freeze_eq_decrease_and_no_hold_record :
    (∀ (w : Wallet) (amount : Nat), w.freeze amount = w.decrease amount) ∧
    (∀ (tx : TxFreeze) (view : Store) (freezer : Wallet),
      storeGet view tx.pub_key = some freezer →
      freezer.balance ≥ tx.amount →
      txFreezeExecute tx view
        = (Except.ok (), storePut view tx.pub_key (freezer.freeze tx.amount)) ∧
      ∀ k, k ≠ tx.pub_key →
        storeGet (txFreezeExecute tx view).2 k = storeGet view k) := by
  refine ⟨fun w amount => rfl, ?_⟩
  intro tx view freezer hf hge
  have hrun : txFreezeExecute tx view
      = (Except.ok (), storePut view tx.pub_key (freezer.freeze tx.amount)) := by
    simp only [txFreezeExecute, hf]
    rw [if_pos hge]
  refine ⟨hrun, ?_⟩
  intro k hk
  rw [hrun]
  exact storeGet_storePut_other view tx.pub_key k _ (Ne.symm hk)

/-- C7 witness: freezing 2 of 5 in wallet 0 writes only the record of wallet 0,
and the record of wallet 1 is untouched. -/
theorem freeze_eq_decrease_and_no_hold_record_witness :
    Wallet.freeze ⟨0, "a", "a@x", 5⟩ 2 = Wallet.decrease ⟨0, "a", "a@x", 5⟩ 2 ∧
    txFreezeExecute ⟨0, 2⟩ [(0, ⟨0, "a", "a@x", 5⟩), (1, ⟨1, "b", "b@x", 7⟩)]
      = (Except.ok (),
         storePut [(0, ⟨0, "a", "a@x", 5⟩), (1, ⟨1, "b", "b@x", 7⟩)] 0
           (Wallet.freeze ⟨0, "a", "a@x", 5⟩ 2)) ∧
    storeGet (txFreezeExecute ⟨0, 2⟩
        [(0, ⟨0, "a", "a@x", 5⟩), (1, ⟨1, "b", "b@x", 7⟩)]).2 1
      = storeGet [(0, ⟨0, "a", "a@x", 5⟩), (1, ⟨1, "b", "b@x", 7⟩)] 1 :=
  ⟨freeze_eq_decrease_and_no_hold_record.1 ⟨0, "a", "a@x", 5⟩ 2,
   (freeze_eq_decrease_and_no_hold_record.2 ⟨0, 2⟩
     [(0, ⟨0, "a", "a@x", 5⟩), (1, ⟨1, "b", "b@x", 7⟩)] ⟨0, "a", "a@x", 5⟩
     rfl (by decide)).1,
   (freeze_eq_decrease_and_no_hold_record.2 ⟨0, 2⟩
     [(0, ⟨0, "a", "a@x", 5⟩), (1, ⟨1, "b", "b@x", 7⟩)] ⟨0, "a", "a@x", 5⟩
     rfl (by decide)).2 1 (by decide)⟩

/-- C8: on a store where the identifier is absent, CreateWallet returns Ok and
the inserted record carries the transaction name and email and balance
INIT_BALANCE, which is 0; in particular the stored record at the new key has
balance 0. -/
theorem create_wallet_inserts_zero_balance (tx : TxCreateWallet) (view : Store)
    (habs : storeGet view tx.pub_key = none) :
    txCreateWalletExecute tx view
      = (Except.ok (),
         storePut view tx.pub_key
           ⟨tx.pub_key, tx.name, tx.email, INIT_BALANCE⟩) ∧
    storeGet (txCreateWalletExecute tx view).2 tx.pub_key
      = some ⟨tx.pub_key, tx.name, tx.email, 0⟩ ∧
    INIT_BALANCE = 0 := by
  have hrun : txCreateWalletExecute tx view
      = (Except.ok (),
         storePut view tx.pub_key
           ⟨tx.pub_key, tx.name, tx.email, INIT_BALANCE⟩) := by
    simp only [txCreateWalletExecute, habs]
  refine ⟨hrun, ?_, rfl⟩
  rw [hrun]
  exact storeGet_storePut_same _ _ _

/-- C8 witness: creating wallet 0 with name Alice on the empty store stores the
record with balance 0. -/
theorem create_wallet_inserts_zero_balance_witness :
    txCreateWalletExecute ⟨0, "Alice", "alice@x"⟩ []
      = (Except.ok (), storePut [] 0 ⟨0, "Alice", "alice@x", INIT_BALANCE⟩) ∧
    storeGet (txCreateWalletExecute ⟨0, "Alice", "alice@x"⟩ []).2 0
      = some ⟨0, "Alice", "alice@x", 0⟩ ∧
    INIT_BALANCE = 0 :=
  create_wallet_inserts_zero_balance ⟨0, "Alice", "alice@x"⟩ [] rfl

/-- C9: the claim states that Wallet::increase never returns a wrapped balance
and instead fails fatally on u64 overflow. The add in the source is unchecked,
so at balance 2^64 - 1 and amount 1 increase returns the record with the
wrapped balance 0 even though the mathematical sum is 2^64, not 0. -/
theorem increase_wraps_at_u64_max :
    Wallet.increase ⟨0, "alice", "al@x", U64MOD - 1⟩ 1
      = ⟨0, "alice", "al@x", 0⟩ ∧
    (U64MOD - 1) + 1 ≠ 0 :=
  ⟨by decide, by decide⟩

/-- C10: the error enumeration has exactly the four variants with discriminants
0, 1, 2, 3, and the conversion to ExecutionError keeps each code and attaches
the fixed display description of the variant. -/
theorem error_codes_and_execution_error :
    errorCode Error.WalletAlreadyExists = 0 ∧
    errorCode Error.SenderNotFound = 1 ∧
    errorCode Error.ReceiverNotFound = 2 ∧
    errorCode Error.InsufficientCurrencyAmount = 3 ∧
    executionErrorFrom Error.WalletAlreadyExists
      = ⟨0, "Wallet already exists"⟩ ∧
    executionErrorFrom Error.SenderNotFound
      = ⟨1, "Sender doesn\x27t exist"⟩ ∧
    executionErrorFrom Error.ReceiverNotFound
      = ⟨2, "Receiver doesn\x27t exist"⟩ ∧
    executionErrorFrom Error.InsufficientCurrencyAmount
      = ⟨3, "Insufficient currency amount"⟩ ∧
    (∀ e : Error, (executionErrorFrom e).code = errorCode e ∧
      (executionErrorFrom e).description = errorDescription e) ∧
    (∀ e : Error, e = Error.WalletAlreadyExists ∨ e = Error.SenderNotFound ∨
      e = Error.ReceiverNotFound ∨ e = Error.InsufficientCurrencyAmount) := by
  refine ⟨rfl, rfl, rfl, rfl, rfl, rfl, rfl, rfl,
    fun e => ⟨rfl, rfl⟩, fun e => ?_⟩
  cases e <;> simp
